import Mathlib

set_option maxRecDepth 8000

/-!
Verification development for the RAG backend server (`backend/server-langchain.js`).

The file embeds the two request handlers the specification's pipeline claims are
about — `POST /generate-answer` and `POST /query` — as pure Lean functions over an
explicit environment holding the external collaborators (the vector store's
retriever, the scored similarity search, and the language-model invocation, each
of which may fail).  JavaScript string operations used by the handlers
(`toLowerCase`, `split(' ')`, `trim`, `substring`, `includes`, `join`) are
modelled character-list by character-list so that every definition is executable
and every concrete scenario can be settled by evaluation.
-/

/-- JS `String.prototype.toLowerCase` restricted to ASCII letters (one character). -/
def lowerChar (c : Char) : Char :=
  if 65 ≤ c.toNat ∧ c.toNat ≤ 90 then Char.ofNat (c.toNat + 32) else c

/-- JS `s.toLowerCase()`. -/
def lowerStr (s : String) : String :=
  ⟨s.data.map lowerChar⟩

/-- Whitespace characters removed by JS `trim`. -/
def isWsChar (c : Char) : Bool :=
  c == ' ' || c == '\t' || c == '\n' || c == '\r' || c == '\x0b' || c == '\x0c'

/-- JS `s.trim()`. -/
def jsTrim (s : String) : String :=
  ⟨((s.data.dropWhile isWsChar).reverse.dropWhile isWsChar).reverse⟩

/-- Splitter for JS `s.split(' ')`: cuts at every single space, keeping empty pieces. -/
def splitSpaceAux : List Char → List Char → List (List Char)
  | [], acc => [acc.reverse]
  | c :: cs, acc =>
    if c == ' ' then acc.reverse :: splitSpaceAux cs []
    else splitSpaceAux cs (c :: acc)

/-- JS `s.split(' ')`. -/
def splitSpace (s : String) : List String :=
  (splitSpaceAux s.data []).map (fun l => ⟨l⟩)

/-- Does `pat` match the beginning of `l`? -/
def charsLeadMatch : List Char → List Char → Bool
  | [], _ => true
  | _ :: _, [] => false
  | a :: as, b :: bs => a == b && charsLeadMatch as bs

/-- Does `pat` occur as a contiguous run inside `l`? -/
def charsSub (pat : List Char) : List Char → Bool
  | [] => pat == []
  | b :: bs => charsLeadMatch pat (b :: bs) || charsSub pat bs

/-- JS `big.includes(sub)`. -/
def strContains (big sub : String) : Bool :=
  charsSub sub.data big.data

/-- JS `s.substring(0, n)`. -/
def jsSubstring (s : String) (n : Nat) : String :=
  ⟨s.data.take n⟩

def emptyStr : String := ""

/-- JS `Array.prototype.join`. -/
def joinSep (sep : String) : List String → String
  | [] => emptyStr
  | [x] => x
  | x :: xs => x ++ sep ++ joinSep sep xs

/-- Map with a running index, as JS `array.map((x, i) => ...)`. -/
def mapWithIndex {α β : Type} (f : Nat → α → β) : Nat → List α → List β
  | _, [] => []
  | i, a :: as => f i a :: mapWithIndex f (i + 1) as

/-- The metadata fields the handlers consult (`filename`, `title`, `url`);
`none` models an absent field. -/
structure Metadata where
  filename : Option String
  title : Option String
  url : Option String
deriving DecidableEq

/-- A stored chunk as seen by the handlers: its text and its metadata. -/
structure Doc where
  pageContent : String
  metadata : Metadata
deriving DecidableEq

/-- One entry of the success response's `sources` array: the chunk metadata,
plus the 200-character preview when the primary path attaches one. -/
structure SourceEntry where
  metadata : Metadata
  preview : Option String
deriving DecidableEq

/-- JSON responses of `POST /generate-answer`: HTTP 400, HTTP 500, or a 200 body
`{answer, sources, model, contextFound, chunksUsed?}` (the `chunksUsed` field is
optional because only one branch of the handler includes it). -/
inductive AnswerResponse where
  | clientError (msg : String)
  | serverError (msg : String)
  | ok (answer : String) (sources : List SourceEntry) (model : String)
      (contextFound : Bool) (chunksUsed : Option Nat)
deriving DecidableEq

/-- One formatted row of the `POST /query` response. -/
structure QueryResult where
  id : String
  content : String
  metadata : Metadata
  score : ℚ
  distance : ℚ
deriving DecidableEq

/-- JSON responses of `POST /query`. -/
inductive QueryResponse where
  | clientError (msg : String)
  | serverError (msg : String)
  | ok (question : String) (results : List QueryResult) (totalResults : Nat)
deriving DecidableEq

/-- External collaborators of the handlers: readiness flags for the vector store
and the retrieval chain, the retriever (`getRelevantDocuments` at fan-out `k`),
the scored search (`similaritySearchWithScore`), and the model invocation
(`llm.invoke`); the latter three may throw, modelled by `Except`. -/
structure Env where
  storeReady : Bool
  chainReady : Bool
  retrieve : String → Nat → Except String (List Doc)
  searchWithScore : String → Nat → Except String (List (Doc × ℚ))
  llmInvoke : String → Except String String

def noQuestionMsg : String := "No question provided"

def storeUnavailableMsg : String := "Vector store not initialized"

def chainUnavailableMsg : String := "Retrieval chain not available. Please ensure Groq API key is configured."

def primaryModel : String := "deepseek-r1-distill-llama-70b"

def noRelevantMsg : String := "I couldn\x27t find relevant information in the knowledge base to answer your question. Please try rephrasing your question or add more relevant documents to the system."

/-- The model tag the unreachable fallback-enhanced body would carry; it is
proven below that no response of the handler ever carries it. -/
def fallbackEnhancedModel : String := "fallback-enhanced"

def ctxSep : String := "\n---\n\n"

def dots3 : String := "..."

def unknownSourceStr : String := "Unknown source"

def genFailPre : String := "Failed to generate answer: "

def queryFailPre : String := "Failed to query documents: "

def resultPre : String := "result-"

def srcOpen : String := "[Source "

def srcColon : String := ": "

def srcClose : String := "]\n"

def nlStr : String := "\n"

def promptHead : String := "You are an expert AI assistant with access to relevant documentation. Provide a comprehensive, accurate, and helpful answer based on the context below.\n\nContext Information:\n"

def promptMid : String := "\n\nUser Question: "

def promptTail : String := "\n\nInstructions:\n- Provide a detailed, well-structured answer based on the context\n- Use clear explanations and include relevant details\n- If the context provides partial information, explain what you can determine and what might be missing\n- Be conversational and helpful\n- Structure your response logically with examples when appropriate\n\nAnswer:"

/-- The `enhancedPrompt` template literal of the handler. -/
def enhancedPrompt (context question : String) : String :=
  promptHead ++ context ++ promptMid ++ question ++ promptTail

/-- The significant query words: `question.toLowerCase().split(' ').filter(w => w.length > 3)`. -/
def significantWords (question : String) : List String :=
  (splitSpace (lowerStr question)).filter (fun w => decide (3 < w.length))

/-- The relevance predicate of the `/generate-answer` filter: the lowercased chunk
text contains some significant query word as a substring, and the trimmed chunk
text is longer than 50 characters. -/
def isRelevant (question : String) (doc : Doc) : Bool :=
  (significantWords question).any (fun w => strContains (lowerStr doc.pageContent) w)
    && decide (50 < (jsTrim doc.pageContent).length)

/-- `sourceDocs.filter(...)` — the chunks surviving the relevance filter. -/
def relevantDocsOf (question : String) (sourceDocs : List Doc) : List Doc :=
  sourceDocs.filter (isRelevant question)

/-- JS `x || y` on an optional string field: an absent or empty (falsy) field
falls through to the alternative. -/
def jsOrStr : Option String → String → String
  | some s, d => if s = emptyStr then d else s
  | none, d => d

/-- `doc.metadata.filename || doc.metadata.title || doc.metadata.url || 'Unknown source'`. -/
def sourceLabel (m : Metadata) : String :=
  jsOrStr m.filename (jsOrStr m.title (jsOrStr m.url unknownSourceStr))

/-- One labeled context block: `[Source i+1: <label>]\n<text>\n`. -/
def contextBlock (i : Nat) (d : Doc) : String :=
  srcOpen ++ toString (i + 1) ++ srcColon ++ sourceLabel d.metadata ++ srcClose
    ++ d.pageContent ++ nlStr

/-- The prompt context: labeled blocks over the surviving chunks in order,
joined with `'\n---\n\n'`. -/
def buildContext (docs : List Doc) : String :=
  joinSep ctxSep (mapWithIndex contextBlock 0 docs)

/-- One `sources` entry of the primary success response:
`{...doc.metadata, preview: doc.pageContent.substring(0, 200) + '...'}`. -/
def mkSourceEntry (d : Doc) : SourceEntry :=
  ⟨d.metadata, some (jsSubstring d.pageContent 200 ++ dots3)⟩

/-- The `catch` block of `/generate-answer`.  In the source, `question` is
declared with `const` inside the `try` block and is out of scope in the
`catch` block, so the latter's read of `question` (at its
`getRelevantDocuments(question)` line) throws a `ReferenceError` before the
fan-out-3 retrieval can run; the inner `catch (fallbackError)` then answers
HTTP 500 with `"Failed to generate answer: "` plus the original (outer) error's
message.  The fallback-enhanced and no-chunk fallback response bodies written
below that read are unreachable dead code, so the whole block reduces to this
server error. -/
def fallbackRespond (errMsg : String) : AnswerResponse :=
  .serverError (genFailPre ++ errMsg)

/-- The `try` block of `/generate-answer`: retrieve at fan-out 8, filter, either
return the zero-survivor body, or prompt the model and return the success body;
a thrown retrieval or model error propagates to the `catch` block. -/
def tryBody (env : Env) (question : String) : Except String AnswerResponse :=
  match env.retrieve question 8 with
  | .error e => .error e
  | .ok sourceDocs =>
    if (relevantDocsOf question sourceDocs).length = 0 then
      .ok (.ok noRelevantMsg [] primaryModel false none)
    else
      match env.llmInvoke
          (enhancedPrompt (buildContext (relevantDocsOf question sourceDocs)) question) with
      | .error e => .error e
      | .ok answerText =>
        .ok (.ok answerText ((relevantDocsOf question sourceDocs).map mkSourceEntry)
          primaryModel true (some (relevantDocsOf question sourceDocs).length))

/-- The `POST /generate-answer` handler. -/
def generateAnswer (env : Env) (question : String) : AnswerResponse :=
  if jsTrim question = emptyStr then .clientError noQuestionMsg
  else if env.chainReady = false then .serverError chainUnavailableMsg
  else
    match tryBody env question with
    | .ok resp => resp
    | .error e => fallbackRespond e

/-- One formatted row of the `/query` response:
`{id: 'result-i', content, metadata, score, distance: 1 - score}`. -/
def fmtResult (i : Nat) (p : Doc × ℚ) : QueryResult :=
  ⟨resultPre ++ toString i, p.1.pageContent, p.1.metadata, p.2, 1 - p.2⟩

/-- The `POST /query` handler. -/
def queryHandler (env : Env) (question : String) (k : Nat) : QueryResponse :=
  if jsTrim question = emptyStr then .clientError noQuestionMsg
  else if env.storeReady = false then .serverError storeUnavailableMsg
  else
    match env.searchWithScore question k with
    | .error e => .serverError (queryFailPre ++ e)
    | .ok results =>
      .ok question (mapWithIndex fmtResult 0 results) results.length

/-- First available — present and non-empty — string among the candidates,
with a default. -/
def firstAvailable : List (Option String) → String → String
  | [], d => d
  | some s :: rest, d => if s = emptyStr then firstAvailable rest d else s
  | none :: rest, d => firstAvailable rest d

/-- Follows the spec: the source label is the first-available of the
`filename`, `title`, `url` metadata fields, falling back to `"Unknown source"`. -/
def specSourceLabel (m : Metadata) : String :=
  firstAvailable [m.filename, m.title, m.url] unknownSourceStr

/-- Follows the spec: block `i` is `"[Source i: <label>]\n<chunk text>\n"`
(indices starting at 1). -/
def specBlock (i : Nat) (d : Doc) : String :=
  srcOpen ++ toString (i + 1) ++ srcColon ++ specSourceLabel d.metadata ++ srcClose
    ++ d.pageContent ++ nlStr

/-- Blocks for the chunks in original rank order, numbering from `i`. -/
def specBlocks : Nat → List Doc → List String
  | _, [] => []
  | i, d :: ds => specBlock i d :: specBlocks (i + 1) ds

/-- Follows the spec: the prompt context renders each surviving chunk in
original rank order as a labeled block and joins the blocks with the fixed
separator. -/
def specContextOf (docs : List Doc) : String :=
  joinSep ctxSep (specBlocks 0 docs)

/-! ### Concrete fixtures for witnesses and counterexamples -/

def refundQ : String := "What is the refund policy?"

def whyMeQ : String := "why me"

def wsQ : String := "   "

def refundDocText : String := "Our refund policy allows returns within 30 days of purchase for any reason."

def mdPolicy : Metadata := { filename := some ("policy.txt"), title := none, url := none }

def docRefund : Doc := { pageContent := refundDocText, metadata := mdPolicy }

def emptyMd : Metadata := { filename := none, title := none, url := none }

def tinyText : String := "zzz qqq"

def shortDoc : Doc := { pageContent := tinyText, metadata := emptyMd }

def errBoom : String := "model invocation failed"

def storeBoom : String := "store offline"

def modelReply : String := "The refund window is 30 days."

/-- Store holds a matching long chunk and a tiny chunk; the model succeeds. -/
def envHappy : Env :=
  { storeReady := true, chainReady := true,
    retrieve := fun _ _ => .ok [docRefund, shortDoc],
    searchWithScore := fun _ _ => .ok [],
    llmInvoke := fun _ => .ok modelReply }

/-- Store holds the matching chunk; the model always throws. -/
def envLLMFail : Env :=
  { storeReady := true, chainReady := true,
    retrieve := fun _ _ => .ok [docRefund],
    searchWithScore := fun _ _ => .ok [],
    llmInvoke := fun _ => .error errBoom }

/-- Retrieval succeeds but returns only a chunk that fails the relevance filter. -/
def envNoSurvivor : Env :=
  { storeReady := true, chainReady := true,
    retrieve := fun _ _ => .ok [shortDoc],
    searchWithScore := fun _ _ => .ok [],
    llmInvoke := fun _ => .error errBoom }

/-- The retrieval chain (and hence the model) was never configured. -/
def envNoChain : Env :=
  { storeReady := true, chainReady := false,
    retrieve := fun _ _ => .ok [docRefund],
    searchWithScore := fun _ _ => .ok [],
    llmInvoke := fun _ => .error errBoom }

/-- The model always throws and the fallback fan-out-3 retrieval throws too. -/
def envFbStoreFail : Env :=
  { storeReady := true, chainReady := true,
    retrieve := fun _ k => if k == 3 then .error storeBoom else .ok [docRefund],
    searchWithScore := fun _ _ => .ok [],
    llmInvoke := fun _ => .error errBoom }

/-- Scored search ranks a single tiny, non-overlapping chunk at similarity 9/10. -/
def envSearch : Env :=
  { storeReady := true, chainReady := true,
    retrieve := fun _ _ => .ok [],
    searchWithScore := fun _ _ => .ok [(shortDoc, (9 : ℚ) / 10)],
    llmInvoke := fun _ => .error errBoom }

/-- The model tag `"none"` that the spec says the zero-survivor branch reports. -/
def noneTag : String := "none"

/-- The `chunksUsed` field of a response, when one is present. -/
def chunksUsedOf : AnswerResponse → Option Nat
  | .ok _ _ _ _ cu => cu
  | _ => none


/-! ### Path lemmas for the `/generate-answer` handler -/

theorem genAnswer_zero_survivors (env : Env) (q : String) (docs : List Doc)
    (hq : ¬ jsTrim q = emptyStr) (hc : env.chainReady = true)
    (hr : env.retrieve q 8 = .ok docs) (hz : relevantDocsOf q docs = []) :
    generateAnswer env q = .ok noRelevantMsg [] primaryModel false none := by
  simp [generateAnswer, tryBody, hq, hc, hr, hz]

theorem genAnswer_success (env : Env) (q : String) (docs : List Doc) (ans : String)
    (hq : ¬ jsTrim q = emptyStr) (hc : env.chainReady = true)
    (hr : env.retrieve q 8 = .ok docs) (hnz : ¬ relevantDocsOf q docs = [])
    (hllm : env.llmInvoke (enhancedPrompt (buildContext (relevantDocsOf q docs)) q) = .ok ans) :
    generateAnswer env q =
      .ok ans ((relevantDocsOf q docs).map mkSourceEntry) primaryModel true
        (some (relevantDocsOf q docs).length) := by
  simp [generateAnswer, tryBody, hq, hc, hr, hllm, List.length_eq_zero, hnz]

theorem genAnswer_llm_fail (env : Env) (q : String) (docs : List Doc) (m : String)
    (hq : ¬ jsTrim q = emptyStr) (hc : env.chainReady = true)
    (hr : env.retrieve q 8 = .ok docs) (hnz : ¬ relevantDocsOf q docs = [])
    (hllm : env.llmInvoke (enhancedPrompt (buildContext (relevantDocsOf q docs)) q)
      = .error m) :
    generateAnswer env q = .serverError (genFailPre ++ m) := by
  simp [generateAnswer, tryBody, fallbackRespond, hq, hc, hr, hllm, List.length_eq_zero, hnz]

theorem genAnswer_ok_inv (env : Env) (q a : String) (s : List SourceEntry)
    (m : String) (cf : Bool) (cu : Option Nat)
    (h : generateAnswer env q = .ok a s m cf cu) :
    m = primaryModel
      ∧ ∃ docs, env.retrieve q 8 = .ok docs
        ∧ ((relevantDocsOf q docs = [] ∧ a = noRelevantMsg ∧ s = [] ∧ cf = false
              ∧ cu = none)
          ∨ (¬ relevantDocsOf q docs = [] ∧ cf = true
              ∧ s = (relevantDocsOf q docs).map mkSourceEntry
              ∧ cu = some (relevantDocsOf q docs).length
              ∧ env.llmInvoke (enhancedPrompt (buildContext (relevantDocsOf q docs)) q)
                  = .ok a)) := by
  by_cases hq : jsTrim q = emptyStr
  · rw [generateAnswer, if_pos hq] at h
    exact AnswerResponse.noConfusion h
  by_cases hc : env.chainReady = false
  · rw [generateAnswer, if_neg hq, if_pos hc] at h
    exact AnswerResponse.noConfusion h
  have hct : env.chainReady = true := eq_true_of_ne_false hc
  rcases h8 : env.retrieve q 8 with e | ds
  · have hga : generateAnswer env q = .serverError (genFailPre ++ e) := by
      simp [generateAnswer, tryBody, fallbackRespond, hq, hc, h8]
    rw [hga] at h
    exact AnswerResponse.noConfusion h
  · by_cases hz : relevantDocsOf q ds = []
    · rw [genAnswer_zero_survivors env q ds hq hct h8 hz] at h
      injection h with ha hs hm hcf hcu
      exact ⟨hm.symm, ds, rfl, Or.inl ⟨hz, ha.symm, hs.symm, hcf.symm, hcu.symm⟩⟩
    · rcases hl : env.llmInvoke (enhancedPrompt (buildContext (relevantDocsOf q ds)) q)
        with em | ans
      · rw [genAnswer_llm_fail env q ds em hq hct h8 hz hl] at h
        exact AnswerResponse.noConfusion h
      · rw [genAnswer_success env q ds ans hq hct h8 hz hl] at h
        injection h with ha hs hm hcf hcu
        exact ⟨hm.symm, ds, rfl, Or.inr ⟨hz, hcf.symm, hs.symm, hcu.symm, ha ▸ hl⟩⟩

/-! ### The code's context builder agrees with the spec's formulation -/

theorem sourceLabel_eq_spec (m : Metadata) : sourceLabel m = specSourceLabel m := by
  rcases m with ⟨f, t, u⟩
  rcases f with _ | fs <;> rcases t with _ | ts <;> rcases u with _ | us <;> rfl

theorem contextBlocks_eq_spec (n : Nat) (docs : List Doc) :
    mapWithIndex contextBlock n docs = specBlocks n docs := by
  induction docs generalizing n with
  | nil => rfl
  | cons d ds ih =>
    show contextBlock n d :: mapWithIndex contextBlock (n + 1) ds
      = specBlock n d :: specBlocks (n + 1) ds
    rw [ih]
    unfold contextBlock specBlock
    rw [sourceLabel_eq_spec]

theorem buildContext_eq_spec (docs : List Doc) : buildContext docs = specContextOf docs := by
  unfold buildContext specContextOf
  rw [contextBlocks_eq_spec]

/-! ### Shape of the formatted `/query` rows -/

theorem fmtRows_content (n : Nat) (pairs : List (Doc × ℚ)) :
    (mapWithIndex fmtResult n pairs).map QueryResult.content
      = pairs.map (fun p => p.1.pageContent) := by
  induction pairs generalizing n with
  | nil => rfl
  | cons p ps ih => simp [mapWithIndex, fmtResult, ih]

theorem fmtRows_score (n : Nat) (pairs : List (Doc × ℚ)) :
    (mapWithIndex fmtResult n pairs).map QueryResult.score = pairs.map (fun p => p.2) := by
  induction pairs generalizing n with
  | nil => rfl
  | cons p ps ih => simp [mapWithIndex, fmtResult, ih]

theorem fmtRows_distance (n : Nat) (pairs : List (Doc × ℚ)) :
    ∀ r ∈ mapWithIndex fmtResult n pairs, r.distance = 1 - r.score := by
  induction pairs generalizing n with
  | nil => intro r hr; exact absurd hr (List.not_mem_nil r)
  | cons p ps ih =>
    intro r hr
    rw [mapWithIndex] at hr
    rcases List.mem_cons.mp hr with h | h
    · subst h; rfl
    · exact ih (n + 1) r h

/-! ### Claims -/

/-- C1: in the answer operation, a retrieved chunk survives the relevance filter
if and only if (a) its lowercase text contains, as a substring, at least one
token of the question obtained by lowercasing and splitting on spaces and
keeping only tokens of length strictly greater than 3, and (b) its trimmed text
length strictly exceeds 50 characters; every chunk failing either test is
dropped. -/
theorem c1_relevance_filter (q : String) (d : Doc) (docs : List Doc) (hd : d ∈ docs) :
    d ∈ relevantDocsOf q docs ↔
      (((splitSpace (lowerStr q)).filter (fun w => decide (3 < w.length))).any
          (fun w => strContains (lowerStr d.pageContent) w) = true
        ∧ 50 < (jsTrim d.pageContent).length) := by
  rw [relevantDocsOf, List.mem_filter, isRelevant, significantWords]
  simp [hd, Bool.and_eq_true]

/-- Witness for C1: the refund chunk (76 characters, containing the token
`refund`) survives the filter for the refund question. -/
theorem c1_relevance_filter_witness :
    docRefund ∈ [docRefund, shortDoc]
      ∧ docRefund ∈ relevantDocsOf refundQ [docRefund, shortDoc] :=
  ⟨by decide,
   (c1_relevance_filter refundQ docRefund [docRefund, shortDoc] (by decide)).mpr (by decide)⟩

/-- C2 counterexample: retrieval succeeds and zero chunks survive, yet the
response reports the model tag `deepseek-r1-distill-llama-70b` — not `"none"` —
and carries no `chunksUsed` field at all (modelled as `none`, not `some 0`),
so the claim's `modelUsed = "none"` and `chunksUsed = 0` are both false. -/
theorem c2_zero_survivor_counterexample :
    generateAnswer envNoSurvivor refundQ = .ok noRelevantMsg [] primaryModel false none
      ∧ primaryModel ≠ noneTag := by
  decide

/-- C2 amended: when retrieval succeeds and zero chunks survive the filter, the
handler returns the non-error body with `contextFound = false`, the fixed
apology string, empty `sources`, no `chunksUsed` field, and the model tag
`deepseek-r1-distill-llama-70b`; and conversely `contextFound` is `false` only
when no chunk survived filtering — any non-error response with
`contextFound = false` forces zero survivors and is exactly that fixed body. -/
theorem c2_zero_survivor_amended (env : Env) (q : String) (docs : List Doc)
    (hq : ¬ jsTrim q = emptyStr) (hc : env.chainReady = true)
    (hr : env.retrieve q 8 = .ok docs) :
    (relevantDocsOf q docs = [] →
        generateAnswer env q = .ok noRelevantMsg [] primaryModel false none)
      ∧ ∀ a s m cu, generateAnswer env q = .ok a s m false cu →
          relevantDocsOf q docs = [] ∧ a = noRelevantMsg ∧ s = [] ∧ m = primaryModel
            ∧ cu = none := by
  refine ⟨fun hz => genAnswer_zero_survivors env q docs hq hc hr hz, ?_⟩
  intro a s m cu h
  obtain ⟨hm, ds, h8, hcase⟩ := genAnswer_ok_inv env q a s m false cu h
  have hde := h8.symm.trans hr
  injection hde with hdd
  subst hdd
  rcases hcase with ⟨hz, ha, hs, _, hcu⟩ | ⟨_, hcf, _⟩
  · exact ⟨hz, ha, hs, hm, hcu⟩
  · exact Bool.noConfusion hcf

/-- Witness for C2 amended: concrete store whose only chunk fails the filter. -/
theorem c2_zero_survivor_amended_witness :
    relevantDocsOf refundQ [shortDoc] = []
      ∧ generateAnswer envNoSurvivor refundQ = .ok noRelevantMsg [] primaryModel false none :=
  ⟨by decide,
   (c2_zero_survivor_amended envNoSurvivor refundQ [shortDoc] (by decide) rfl rfl).1 (by decide)⟩

/-- C3 counterexample: a successful invocation (HTTP 200, a normal
`AnswerResult`) whose response carries no `chunksUsed` field at all — the
zero-survivor body — refuting the claim that every successful result carries a
`chunksUsed` equal to the survivor count (the spec expects `chunksUsed = 0`
there). -/
theorem c3_chunks_used_counterexample :
    generateAnswer envNoSurvivor refundQ = .ok noRelevantMsg [] primaryModel false none
      ∧ chunksUsedOf (generateAnswer envNoSurvivor refundQ) = none := by
  decide

/-- C3 amended: on the primary success path the response carries `chunksUsed`
equal to the number of chunks surviving the relevance filter, which is at most
the retrieval fan-out 8 whenever the store returned at most 8 documents; the
zero-survivor non-error response carries no `chunksUsed` field. -/
theorem c3_chunks_used_amended (env : Env) (q : String) (docs : List Doc)
    (hq : ¬ jsTrim q = emptyStr) (hc : env.chainReady = true)
    (hr : env.retrieve q 8 = .ok docs) (hk : docs.length ≤ 8) :
    (∀ ans, ¬ relevantDocsOf q docs = [] →
        env.llmInvoke (enhancedPrompt (buildContext (relevantDocsOf q docs)) q) = .ok ans →
        generateAnswer env q =
            .ok ans ((relevantDocsOf q docs).map mkSourceEntry) primaryModel true
              (some (relevantDocsOf q docs).length)
          ∧ (relevantDocsOf q docs).length ≤ 8)
      ∧ (relevantDocsOf q docs = [] → chunksUsedOf (generateAnswer env q) = none) := by
  constructor
  · intro ans hnz hllm
    exact ⟨genAnswer_success env q docs ans hq hc hr hnz hllm,
      le_trans (List.length_filter_le (isRelevant q) docs) hk⟩
  · intro hz
    simp [genAnswer_zero_survivors env q docs hq hc hr hz, chunksUsedOf]

/-- Witness for C3 amended: store with one matching and one failing chunk,
model succeeding; one chunk survives and `chunksUsed = some 1`. -/
theorem c3_chunks_used_amended_witness :
    generateAnswer envHappy refundQ =
        .ok modelReply ((relevantDocsOf refundQ [docRefund, shortDoc]).map mkSourceEntry)
          primaryModel true (some (relevantDocsOf refundQ [docRefund, shortDoc]).length)
      ∧ (relevantDocsOf refundQ [docRefund, shortDoc]).length ≤ 8 :=
  (c3_chunks_used_amended envHappy refundQ [docRefund, shortDoc] (by decide) rfl rfl
      (by decide)).1 modelReply (by decide) rfl

/-- C4 counterexample: with the model not configured (retrieval chain absent)
the handler surfaces an HTTP 500 rather than entering the fallback path, and
with a configured model that always fails it likewise surfaces an HTTP 500 — on
neither trigger does any fan-out-3 fallback retrieval happen. -/
theorem c4_no_fallback_counterexample :
    generateAnswer envNoChain refundQ = .serverError chainUnavailableMsg
      ∧ generateAnswer envLLMFail refundQ = .serverError (genFailPre ++ errBoom) := by
  decide

/-- C4 amended: whenever the language-model call fails or times out, the
handler surfaces an HTTP 500 server error carrying the original failure
message — the catch block's fan-out-3 re-retrieval is dead code, because its
read of `question` (scoped to the `try` block) throws before any retrieval —
and when the model is not configured at all it surfaces the retrieval-chain
server error, likewise without any fallback retrieval. -/
theorem c4_fallback_amended :
    (∀ (env : Env) (q : String) (docs : List Doc) (m : String),
        ¬ jsTrim q = emptyStr → env.chainReady = true →
        env.retrieve q 8 = .ok docs → ¬ relevantDocsOf q docs = [] →
        (∀ p, env.llmInvoke p = .error m) →
        generateAnswer env q = .serverError (genFailPre ++ m))
      ∧ ∀ (env : Env) (q : String),
          ¬ jsTrim q = emptyStr → env.chainReady = false →
          generateAnswer env q = .serverError chainUnavailableMsg := by
  constructor
  · intro env q docs m hq hc hr hnz hllm
    exact genAnswer_llm_fail env q docs m hq hc hr hnz (hllm _)
  · intro env q hq hc
    simp [generateAnswer, hq, hc]

/-- Witness for C4 amended: the always-failing model and the absent chain each
yield the corresponding server error. -/
theorem c4_fallback_amended_witness :
    generateAnswer envLLMFail refundQ = .serverError (genFailPre ++ errBoom)
      ∧ generateAnswer envNoChain refundQ = .serverError chainUnavailableMsg :=
  ⟨c4_fallback_amended.1 envLLMFail refundQ [docRefund] errBoom (by decide) rfl rfl (by decide)
      (fun _ => rfl),
   c4_fallback_amended.2 envNoChain refundQ (by decide) rfl⟩

/-- C5 counterexample: a model that always fails, with the matching refund
chunk served at every fan-out (including 3): the handler answers HTTP 500
carrying the model failure — not the claimed `contextFound = true`
fallback-enhanced 200 with concatenated previews — because the catch block's
fallback synthesis is unreachable. -/
theorem c5_fallback_answer_counterexample :
    generateAnswer envLLMFail refundQ = .serverError (genFailPre ++ errBoom) := by
  decide

/-- C5 amended: when the language model always fails — whatever chunks a
fan-out-3 retrieval would yield — the handler returns an HTTP 500 server error
carrying the original failure, and no response of the handler ever carries the
`fallback-enhanced` model tag, so no preview-concatenation answer is ever
produced. -/
theorem c5_fallback_answer_amended (env : Env) (q : String) (docs : List Doc) (m : String)
    (hq : ¬ jsTrim q = emptyStr) (hc : env.chainReady = true)
    (hr : env.retrieve q 8 = .ok docs) (hnz : ¬ relevantDocsOf q docs = [])
    (hllm : ∀ p, env.llmInvoke p = .error m) :
    generateAnswer env q = .serverError (genFailPre ++ m)
      ∧ ∀ (env2 : Env) (q2 a : String) (s : List SourceEntry) (cf : Bool) (cu : Option Nat),
          ¬ generateAnswer env2 q2 = .ok a s fallbackEnhancedModel cf cu := by
  refine ⟨genAnswer_llm_fail env q docs m hq hc hr hnz (hllm _), ?_⟩
  intro env2 q2 a s cf cu h
  exact absurd (genAnswer_ok_inv env2 q2 a s fallbackEnhancedModel cf cu h).1 (by decide)

/-- Witness for C5 amended: the concrete always-failing model yields the 500,
and in particular that run is not a fallback-enhanced 200. -/
theorem c5_fallback_answer_amended_witness :
    generateAnswer envLLMFail refundQ = .serverError (genFailPre ++ errBoom)
      ∧ ¬ generateAnswer envLLMFail refundQ =
          .ok emptyStr [] fallbackEnhancedModel true none :=
  ⟨(c5_fallback_answer_amended envLLMFail refundQ [docRefund] errBoom (by decide) rfl rfl
      (by decide) (fun _ => rfl)).1,
   (c5_fallback_answer_amended envLLMFail refundQ [docRefund] errBoom (by decide) rfl rfl
      (by decide) (fun _ => rfl)).2 envLLMFail refundQ emptyStr [] true none⟩

/-- C6: if, after a model failure, the fallback retrieval itself fails with a
store error, the handler surfaces a fatal server error carrying the original
model failure message `m` (not the store error), and returns no fabricated
answer. -/
theorem c6_fallback_store_error (env : Env) (q : String) (docs : List Doc) (m e : String)
    (hq : ¬ jsTrim q = emptyStr) (hc : env.chainReady = true)
    (hr : env.retrieve q 8 = .ok docs) (hnz : ¬ relevantDocsOf q docs = [])
    (hllm : ∀ p, env.llmInvoke p = .error m)
    (hr3 : env.retrieve q 3 = .error e) :
    generateAnswer env q = .serverError (genFailPre ++ m) :=
  genAnswer_llm_fail env q docs m hq hc hr hnz (hllm _)

/-- Witness for C6: store that throws only at fan-out 3, model always failing;
the 500 body carries the model failure message, not the store one. -/
theorem c6_fallback_store_error_witness :
    generateAnswer envFbStoreFail refundQ = .serverError (genFailPre ++ errBoom) :=
  c6_fallback_store_error envFbStoreFail refundQ [docRefund] errBoom storeBoom (by decide) rfl
    rfl (by decide) (fun _ => rfl) rfl

/-- C7: the `/query` handler applies no relevance filter — every pair the store
ranks within the top `k` appears as a row, in order, with its raw text, its raw
similarity score, and a distance computed exactly as `1 - score`. -/
theorem c7_search_passthrough (env : Env) (q : String) (k : Nat) (pairs : List (Doc × ℚ))
    (hq : ¬ jsTrim q = emptyStr) (hs : env.storeReady = true)
    (hr : env.searchWithScore q k = .ok pairs) :
    queryHandler env q k = .ok q (mapWithIndex fmtResult 0 pairs) pairs.length
      ∧ (mapWithIndex fmtResult 0 pairs).map QueryResult.content
          = pairs.map (fun p => p.1.pageContent)
      ∧ (mapWithIndex fmtResult 0 pairs).map QueryResult.score = pairs.map (fun p => p.2)
      ∧ ∀ r ∈ mapWithIndex fmtResult 0 pairs, r.distance = 1 - r.score := by
  refine ⟨?_, fmtRows_content 0 pairs, fmtRows_score 0 pairs, fmtRows_distance 0 pairs⟩
  simp [queryHandler, hq, hs, hr]

/-- Witness for C7: a 7-character chunk with no token overlap with the question
is still returned by `/query` (while `answer` would filter it out), with
`distance = 1 - score`. -/
theorem c7_search_passthrough_witness :
    (queryHandler envSearch refundQ 5 =
        .ok refundQ (mapWithIndex fmtResult 0 [(shortDoc, (9 : ℚ) / 10)]) 1
      ∧ (mapWithIndex fmtResult 0 [(shortDoc, (9 : ℚ) / 10)]).map QueryResult.content
          = [(shortDoc, (9 : ℚ) / 10)].map (fun p => p.1.pageContent)
      ∧ (mapWithIndex fmtResult 0 [(shortDoc, (9 : ℚ) / 10)]).map QueryResult.score
          = [(shortDoc, (9 : ℚ) / 10)].map (fun p => p.2)
      ∧ ∀ r ∈ mapWithIndex fmtResult 0 [(shortDoc, (9 : ℚ) / 10)],
          r.distance = 1 - r.score) :=
  c7_search_passthrough envSearch refundQ 5 [(shortDoc, (9 : ℚ) / 10)] (by decide) rfl rfl

/-- C8 counterexample: `k = 0` is not a positive integer, yet `/query` does not
fail with a client error — the request reaches the store and its ranked pair is
returned — refuting the claim that a non-positive `k` is rejected. -/
theorem c8_validation_counterexample :
    queryHandler envSearch refundQ 0 =
      .ok refundQ [fmtResult 0 (shortDoc, (9 : ℚ) / 10)] 1 := by
  rfl

/-- C8 amended: both handlers fail with the client error `"No question
provided"` whenever the question is empty or whitespace-only after trimming —
regardless of the environment, so no such request reaches the store — but `k`
is never validated: `/query` forwards any `k` to the store and
`/generate-answer` uses the fixed fan-outs 8 and 3. -/
theorem c8_validation_amended (env : Env) (q : String) (k : Nat)
    (hq : jsTrim q = emptyStr) :
    queryHandler env q k = .clientError noQuestionMsg
      ∧ generateAnswer env q = .clientError noQuestionMsg := by
  constructor
  · rw [queryHandler, if_pos hq]
  · rw [generateAnswer, if_pos hq]

/-- Witness for C8 amended: a whitespace-only question is rejected by both
handlers. -/
theorem c8_validation_amended_witness :
    queryHandler envSearch wsQ 5 = .clientError noQuestionMsg
      ∧ generateAnswer envSearch wsQ = .clientError noQuestionMsg :=
  c8_validation_amended envSearch wsQ 5 (by decide)

/-- C9: when at least one chunk survives the filter, the prompt context is the
spec's formulation — for each surviving chunk in original rank order a labeled
block whose label is the first available (present and non-empty) of the chunk's
`filename`, `title`, `url` metadata fields, falling back to `"Unknown source"`,
followed by the chunk text, blocks joined by the one fixed separator — and that
context is what the model prompt embeds. -/
theorem c9_context_construction (env : Env) (q : String) (docs : List Doc)
    (hq : ¬ jsTrim q = emptyStr) (hc : env.chainReady = true)
    (hr : env.retrieve q 8 = .ok docs) (hnz : ¬ relevantDocsOf q docs = []) :
    buildContext (relevantDocsOf q docs) = specContextOf (relevantDocsOf q docs)
      ∧ ∀ ans,
          env.llmInvoke (enhancedPrompt (specContextOf (relevantDocsOf q docs)) q) = .ok ans →
          generateAnswer env q =
            .ok ans ((relevantDocsOf q docs).map mkSourceEntry) primaryModel true
              (some (relevantDocsOf q docs).length) := by
  refine ⟨buildContext_eq_spec _, fun ans hllm => ?_⟩
  apply genAnswer_success env q docs ans hq hc hr hnz
  rw [buildContext_eq_spec]
  exact hllm

/-- Witness for C9: concrete happy-path run; the surviving chunk's label is its
`filename` and the model receives the spec-shaped context. -/
theorem c9_context_construction_witness :
    buildContext (relevantDocsOf refundQ [docRefund, shortDoc])
        = specContextOf (relevantDocsOf refundQ [docRefund, shortDoc])
      ∧ generateAnswer envHappy refundQ =
          .ok modelReply ((relevantDocsOf refundQ [docRefund, shortDoc]).map mkSourceEntry)
            primaryModel true (some (relevantDocsOf refundQ [docRefund, shortDoc]).length) :=
  ⟨(c9_context_construction envHappy refundQ [docRefund, shortDoc] (by decide) rfl rfl
      (by decide)).1,
   (c9_context_construction envHappy refundQ [docRefund, shortDoc] (by decide) rfl rfl
      (by decide)).2 modelReply rfl⟩

/-- C10: for a question all of whose space-separated words have length at most
3, the significant-token list is empty, so every retrieved chunk fails the
relevance filter and the primary path returns the `contextFound = false`
no-relevant-information body regardless of the store's contents. -/
theorem c10_short_question (env : Env) (q : String) (docs : List Doc)
    (hq : ¬ jsTrim q = emptyStr) (hc : env.chainReady = true)
    (hr : env.retrieve q 8 = .ok docs)
    (hw : ∀ w ∈ splitSpace (lowerStr q), w.length ≤ 3) :
    relevantDocsOf q docs = []
      ∧ generateAnswer env q = .ok noRelevantMsg [] primaryModel false none := by
  have hsig : significantWords q = [] := by
    rw [significantWords]
    apply List.filter_eq_nil_iff.mpr
    intro w hwmem
    simp only [decide_eq_true_eq, not_lt]
    exact hw w hwmem
  have hz : relevantDocsOf q docs = [] := by
    rw [relevantDocsOf]
    apply List.filter_eq_nil_iff.mpr
    intro d _
    simp [isRelevant, hsig]
  exact ⟨hz, genAnswer_zero_survivors env q docs hq hc hr hz⟩

/-- Witness for C10: the question `"why me"` (words of length 3 and 2) yields
the no-relevant-information body even though the store holds a matching-length
chunk. -/
theorem c10_short_question_witness :
    relevantDocsOf whyMeQ [docRefund] = []
      ∧ generateAnswer envLLMFail whyMeQ = .ok noRelevantMsg [] primaryModel false none :=
  c10_short_question envLLMFail whyMeQ [docRefund] (by decide) rfl rfl (by decide)
